import Mathlib

/-!
# Verification of the form-showcase dynamic-form model and submission pipeline

Shallow embedding of the data model, validation schemas and request handlers of
the `form-showcase` repository:

* field/form definition model and `generateFormData`
  (`src/hooks/useDynamicForm.ts`, `src/components/forms/DynamicForm.tsx`);
* the declarative validation schemas (`src/lib/schemas/form-schemas.ts`),
  with the string checks of the external validation library modelled as an
  explicit check list (`StrCheck`);
* the POST handlers for the contact, dynamic, multi-step and file-upload
  forms (`src/app/api/forms/*`);
* the multi-step wizard's per-step validation (`MultiStepForm`).

JavaScript strings are modelled as Lean `String` (all inputs at issue are
ASCII, where JS `length` agrees with `String.length`), absent (`undefined`)
values as `Option`, and JS falsiness of a string (`s || default`) as the
explicit test `s = ""`.
-/

/-- The `type` enum of `dynamicFieldSchema` (form-schemas.ts:45). -/
inductive FieldType
  | text
  | email
  | number
  | checkbox
  | radio
  | select
deriving DecidableEq, Repr

/-- One entry of a field's `options` array (form-schemas.ts:47-50). -/
structure FieldOption where
  label : String
  value : String
deriving DecidableEq, Repr

/-- A submitted field value (`value` union of form-schemas.ts:51-56:
string | number | boolean | null).  Numbers are carried opaquely (no
arithmetic is performed on them anywhere in the code). -/
inductive FieldValue
  | str (s : String)
  | num (n : Int)
  | bool (b : Bool)
  | null
deriving DecidableEq, Repr

/-- A dynamic-form field (`dynamicFieldSchema`, form-schemas.ts:42-57).
`options = none` models an absent (`undefined`) options property. -/
structure FieldDef where
  id : String
  label : String
  type : FieldType
  required : Bool
  options : Option (List FieldOption)
  value : Option FieldValue
deriving DecidableEq, Repr

/-- A finalized dynamic form (`dynamicFormSchema`, form-schemas.ts:59-62). -/
structure FormDefinition where
  formName : String
  fields : List FieldDef
deriving DecidableEq, Repr

/-- The condition `['select', 'radio', 'checkbox'].includes(field.type)`
used by `generateFormData` (useDynamicForm.ts:45, DynamicForm.tsx:54);
the spec names it `requiresOptions`. -/
def requiresOptions (t : FieldType) : Bool :=
  [FieldType.select, FieldType.radio, FieldType.checkbox].contains t

/-- The condition `['select', 'radio'].includes(fieldType)` deciding whether
the options editor is rendered (DynamicForm.tsx:283). -/
def optionsEditorShown (t : FieldType) : Bool :=
  [FieldType.select, FieldType.radio].contains t

/-- The per-field body of the `fields.map` in `generateFormData`
(useDynamicForm.ts:44-49): a choice-type field with an absent options
property gets an empty options list; any other field is returned as is. -/
def normalizeField (f : FieldDef) : FieldDef :=
  if requiresOptions f.type = true ∧ f.options = none then
    { f with options := some [] }
  else
    f

/-- `generateFormData` (useDynamicForm.ts:41-51, identically
DynamicForm.tsx:49-60): the finalize operation producing the submittable
`FormDefinition` snapshot from the in-memory form name and field list. -/
def generateFormData (formName : String) (fields : List FieldDef) : FormDefinition :=
  { formName := formName, fields := fields.map normalizeField }

theorem normalizeField_type (f : FieldDef) : (normalizeField f).type = f.type := by
  unfold normalizeField
  split <;> rfl

theorem normalizeField_idem (f : FieldDef) :
    normalizeField (normalizeField f) = normalizeField f := by
  unfold normalizeField
  by_cases h : requiresOptions f.type = true ∧ f.options = none
  · rw [if_pos h]
    simp
  · rw [if_neg h, if_neg h]

/-- Claim C1: `generateFormData` returns a form in which every field whose
type is select, radio or checkbox and whose options are absent has been given
an empty options list, every other field is returned unchanged, field order
and count are preserved, and afterwards every choice-type field has a
non-absent options list. -/
theorem generateFormData_normalizes_options (n : String) (fs : List FieldDef) :
    (generateFormData n fs).formName = n ∧
    (generateFormData n fs).fields.length = fs.length ∧
    (∀ (i : Nat) (f : FieldDef), fs[i]? = some f →
      (requiresOptions f.type = true → f.options = none →
        ((generateFormData n fs).fields)[i]? = some { f with options := some [] }) ∧
      (requiresOptions f.type = true → f.options ≠ none →
        ((generateFormData n fs).fields)[i]? = some f) ∧
      (requiresOptions f.type = false →
        ((generateFormData n fs).fields)[i]? = some f)) ∧
    (∀ g ∈ (generateFormData n fs).fields,
      requiresOptions g.type = true → g.options ≠ none) := by
  refine ⟨rfl, by simp [generateFormData], ?_, ?_⟩
  · intro i f hf
    have hmap : ((generateFormData n fs).fields)[i]? = some (normalizeField f) := by
      simp [generateFormData, List.getElem?_map, hf]
    refine ⟨?_, ?_, ?_⟩
    · intro hreq hnone
      rw [hmap]
      unfold normalizeField
      rw [if_pos ⟨hreq, hnone⟩]
    · intro hreq hsome
      rw [hmap]
      unfold normalizeField
      rw [if_neg (by
        intro hc
        exact hsome hc.2)]
    · intro hnreq
      rw [hmap]
      unfold normalizeField
      rw [if_neg (by
        intro hc
        rw [hnreq] at hc
        exact Bool.false_ne_true hc.1)]
  · intro g hg hreq
    simp only [generateFormData, List.mem_map] at hg
    obtain ⟨f, _, rfl⟩ := hg
    rw [normalizeField_type] at hreq
    unfold normalizeField
    by_cases h : requiresOptions f.type = true ∧ f.options = none
    · rw [if_pos h]
      simp
    · rw [if_neg h]
      intro hnone
      exact h ⟨hreq, hnone⟩

/-- A choice-type field with absent options, used to instantiate the
claim theorems at a concrete input. -/
def sampleSelectField : FieldDef :=
  { id := "f1", label := "Color", type := FieldType.select, required := true,
    options := none, value := none }

/-- Witness for claim C1 at a concrete one-field form: the select field with
absent options comes back with an empty options list. -/
theorem generateFormData_normalizes_options_witness :
    ((generateFormData "Survey" [sampleSelectField]).fields)[0]? =
      some { sampleSelectField with options := some [] } :=
  ((generateFormData_normalizes_options "Survey" [sampleSelectField]).2.2.1 0
    sampleSelectField rfl).1 rfl rfl

/-- Claim C2: finalize is idempotent — running `generateFormData` on the field
list produced by a first `generateFormData` yields the same `FormDefinition`. -/
theorem generateFormData_idempotent (n : String) (fs : List FieldDef) :
    generateFormData n ((generateFormData n fs).fields) = generateFormData n fs := by
  simp only [generateFormData, FormDefinition.mk.injEq, true_and, List.map_map]
  exact List.map_congr_left (fun f _ => normalizeField_idem f)

/-! ## String validation checks

`z.string()` schemas of the external validation library are modelled as a
list of checks applied in order, each contributing its issue message when
violated; a plain `z.string()` carries the empty check list.  Lengths model
the JavaScript `length` of the (ASCII) strings at issue. -/

/-- Characters the external library's email pattern allows in the local part
(letters, digits, underscore, apostrophe, plus, hyphen, dot). -/
def isEmailLocalChar (c : Char) : Bool :=
  c.isAlphanum || c = '_' || c = Char.ofNat 39 || c = '+' || c = '-' || c = '.'

/-- Characters the email pattern allows as the final local-part character. -/
def isEmailLocalEndChar (c : Char) : Bool :=
  c.isAlphanum || c = '_' || c = '+' || c = '-'

/-- No two consecutive dots anywhere in the character list. -/
def noDoubleDot : List Char → Bool
  | [] => true
  | [_] => true
  | a :: b :: rest => !(a = '.' && b = '.') && noDoubleDot (b :: rest)

/-- Split a character list at every character satisfying `p`. -/
def splitCh (p : Char → Bool) : List Char → List (List Char)
  | [] => [[]]
  | c :: rest =>
    let r := splitCh p rest
    if p c then
      [] :: r
    else
      match r with
      | [] => [[c]]
      | h :: t => (c :: h) :: t

/-- The local part of an email: non-empty, not starting with a dot, every
character allowed, and the final character in the restricted end set. -/
def emailLocalOk (lc : List Char) : Bool :=
  match lc with
  | [] => false
  | c :: _ =>
    !(c = '.') && lc.all isEmailLocalChar &&
      (match lc.getLast? with
       | some e => isEmailLocalEndChar e
       | none => false)

/-- A non-final domain label: non-empty, starting alphanumeric, the rest
alphanumeric or hyphen. -/
def emailDomainLabelOk : List Char → Bool
  | [] => false
  | c :: rest => c.isAlphanum && rest.all (fun d => d.isAlphanum || d = '-')

/-- The final domain label: at least two letters. -/
def emailTldOk (l : List Char) : Bool :=
  decide (2 ≤ l.length) && l.all Char.isAlpha

/-- Model of the external validation library's `z.string().email()` format
check (used by every schema's `email` field, form-schemas.ts:6,15): exactly
one `@` separating a well-formed local part from a dot-separated domain whose
last label is a TLD, with no `..` anywhere. -/
def emailOk (s : String) : Bool :=
  match splitCh (fun c => c = '@') s.toList with
  | [loc, dom] =>
    noDoubleDot s.toList && emailLocalOk loc &&
      (let parts := splitCh (fun c => c = '.') dom
       decide (2 ≤ parts.length) && parts.dropLast.all emailDomainLabelOk &&
         (match parts.getLast? with
          | some t => emailTldOk t
          | none => false))
  | _ => false

/-- One check of a `z.string()` schema: `.min`, `.max`, or `.email`, each
with the issue message it raises. -/
inductive StrCheck
  | minLen (n : Nat) (msg : String)
  | maxLen (n : Nat) (msg : String)
  | emailFmt (msg : String)
deriving DecidableEq, Repr

/-- Run one string check, yielding its issue message when violated. -/
def runStrCheck (s : String) : StrCheck → List String
  | StrCheck.minLen n msg => if s.length < n then [msg] else []
  | StrCheck.maxLen n msg => if s.length > n then [msg] else []
  | StrCheck.emailFmt msg => if emailOk s then [] else [msg]

/-- Run a check list in order, collecting every issue message. -/
def runStrChecks (s : String) (cs : List StrCheck) : List String :=
  (cs.map (runStrCheck s)).flatten

/-! ## File-upload constraints (claim C3) -/

/-- The metadata of a candidate upload that validation inspects: MIME type
and size in bytes. -/
structure FileMeta where
  type : String
  size : Nat
deriving DecidableEq, Repr

/-- `5 * 1024 * 1024` — the size bound of form-schemas.ts:69 and
route.ts:41. -/
def maxFileSize : Nat := 5 * 1024 * 1024

/-- `['image/jpeg', 'image/png', 'application/pdf']`
(form-schemas.ts:71, route.ts:29). -/
def allowedTypes : List String := ["image/jpeg", "image/png", "application/pdf"]

/-- The two `refine` checks of `fileUploadSchema` (form-schemas.ts:68-73),
run in order, each contributing its message when violated. -/
def fileCheckErrors (f : FileMeta) : List String :=
  (if f.size ≤ maxFileSize then [] else ["File size must be less than 5MB"]) ++
    (if allowedTypes.contains f.type then [] else ["File must be JPEG, PNG, or PDF"])

/-- Outcome of the server-side file checks of the upload route
(route.ts:28-50), which tests the type first and then the size and reports
at most one error. -/
inductive RouteFileResult
  | ok
  | typeError
  | sizeError
deriving DecidableEq, Repr

/-- The server-side file checks of `POST /api/forms/file-upload`
(route.ts:28-50). -/
def routeFileCheck (f : FileMeta) : RouteFileResult :=
  if ¬ (allowedTypes.contains f.type = true) then
    RouteFileResult.typeError
  else if f.size > maxFileSize then
    RouteFileResult.sizeError
  else
    RouteFileResult.ok

/-- Claim C3: file validation accepts a candidate iff its MIME type is one of
image/jpeg, image/png, application/pdf and its size is at most 5,242,880
bytes; a violated constraint produces an error naming that constraint; any
6 MiB PDF gets a size error, any 1 MiB text/plain file a type error, and any
2 MiB PNG is accepted — in both the schema and the upload route. -/
theorem fileUpload_constraints (f : FileMeta) :
    (fileCheckErrors f = [] ↔
      (allowedTypes.contains f.type = true ∧ f.size ≤ 5242880)) ∧
    (¬ f.size ≤ maxFileSize → "File size must be less than 5MB" ∈ fileCheckErrors f) ∧
    (¬ allowedTypes.contains f.type = true →
      "File must be JPEG, PNG, or PDF" ∈ fileCheckErrors f) ∧
    (f.type = "application/pdf" → f.size = 6 * 1024 * 1024 →
      fileCheckErrors f = ["File size must be less than 5MB"] ∧
      routeFileCheck f = RouteFileResult.sizeError) ∧
    (f.type = "text/plain" → f.size = 1024 * 1024 →
      fileCheckErrors f = ["File must be JPEG, PNG, or PDF"] ∧
      routeFileCheck f = RouteFileResult.typeError) ∧
    (f.type = "image/png" → f.size = 2 * 1024 * 1024 →
      fileCheckErrors f = [] ∧ routeFileCheck f = RouteFileResult.ok) := by
  obtain ⟨t, s⟩ := f
  refine ⟨?_, ?_, ?_, ?_, ?_, ?_⟩
  · show fileCheckErrors ⟨t, s⟩ = [] ↔ allowedTypes.contains t = true ∧ s ≤ 5242880
    unfold fileCheckErrors maxFileSize
    constructor
    · intro h
      by_cases hs : s ≤ 5 * 1024 * 1024
      · rw [if_pos hs] at h
        by_cases ht : allowedTypes.contains t = true
        · exact ⟨ht, hs⟩
        · rw [if_neg ht] at h
          simp at h
      · rw [if_neg hs] at h
        simp at h
    · intro ⟨ht, hs⟩
      rw [if_pos hs, if_pos ht]
      rfl
  · intro hs
    unfold fileCheckErrors
    rw [if_neg hs]
    simp
  · intro ht
    unfold fileCheckErrors
    rw [if_neg ht]
    simp
  · rintro rfl rfl
    constructor <;> decide
  · rintro rfl rfl
    constructor <;> decide
  · rintro rfl rfl
    constructor <;> decide

/-- Witness for claim C3 at concrete files: a 6 MiB PDF gets exactly the size
error from the schema checks and the size error from the route, and a 2 MiB
PNG is accepted by both. -/
theorem fileUpload_constraints_witness :
    (fileCheckErrors ⟨"application/pdf", 6 * 1024 * 1024⟩ =
        ["File size must be less than 5MB"] ∧
      routeFileCheck ⟨"application/pdf", 6 * 1024 * 1024⟩ = RouteFileResult.sizeError) ∧
    (fileCheckErrors ⟨"image/png", 2 * 1024 * 1024⟩ = [] ∧
      routeFileCheck ⟨"image/png", 2 * 1024 * 1024⟩ = RouteFileResult.ok) :=
  ⟨(fileUpload_constraints ⟨"application/pdf", 6 * 1024 * 1024⟩).2.2.2.1 rfl rfl,
    (fileUpload_constraints ⟨"image/png", 2 * 1024 * 1024⟩).2.2.2.2.2 rfl rfl⟩

/-! ## Contact form schema (claim C4) -/

/-- A contact-form payload (`contactFormSchema`, form-schemas.ts:4-9). -/
structure ContactInput where
  name : String
  email : String
  subject : String
  message : String
deriving DecidableEq, Repr

/-- `z.string().min(1, 'Name is required').max(100)` (form-schemas.ts:5);
the max check carries the library's default message. -/
def nameChecks : List StrCheck :=
  [StrCheck.minLen 1 "Name is required",
    StrCheck.maxLen 100 "String must contain at most 100 character(s)"]

/-- `z.string().email('Invalid email address')` (form-schemas.ts:6). -/
def emailChecks : List StrCheck :=
  [StrCheck.emailFmt "Invalid email address"]

/-- `z.string().min(1, 'Subject is required').max(200)` (form-schemas.ts:7). -/
def subjectChecks : List StrCheck :=
  [StrCheck.minLen 1 "Subject is required",
    StrCheck.maxLen 200 "String must contain at most 200 character(s)"]

/-- `z.string().min(10, 'Message must be at least 10 characters').max(1000)`
(form-schemas.ts:8). -/
def messageChecks : List StrCheck :=
  [StrCheck.minLen 10 "Message must be at least 10 characters",
    StrCheck.maxLen 1000 "String must contain at most 1000 character(s)"]

/-- The field-keyed error mapping produced by validating a contact payload. -/
structure ContactErrors where
  name : List String
  email : List String
  subject : List String
  message : List String
deriving DecidableEq, Repr

/-- Validate a contact payload against `contactFormSchema`, collecting every
field's issues. -/
def contactValidate (r : ContactInput) : ContactErrors :=
  { name := runStrChecks r.name nameChecks,
    email := runStrChecks r.email emailChecks,
    subject := runStrChecks r.subject subjectChecks,
    message := runStrChecks r.message messageChecks }

/-- A contact payload is valid iff no field produced an issue. -/
def contactValid (r : ContactInput) : Bool :=
  (contactValidate r).name.isEmpty && (contactValidate r).email.isEmpty &&
    (contactValidate r).subject.isEmpty && (contactValidate r).message.isEmpty

/-- Counterexample to claim C4 as stated: a 9-character message is rejected,
but the field-scoped error reads "Message must be at least 10 characters"
(capital M), not the claimed "message must be at least 10 characters". -/
theorem contact_message_error_text_counterexample :
    runStrChecks "123456789" messageChecks =
        ["Message must be at least 10 characters"] ∧
      runStrChecks "123456789" messageChecks ≠
        ["message must be at least 10 characters"] := by
  constructor <;> decide

/-- Claim C4 (amended: the rejection message is spelled
"Message must be at least 10 characters", with a capital M): given name,
email and subject pass their checks, a 9-character message is rejected with
that field-scoped error, a message of length 10 to 1000 is accepted, a
message shorter than 10 or longer than 1000 is rejected; a name longer than
100 characters or a subject longer than 200 characters always produces a
field-scoped error. -/
theorem contact_length_bounds (r : ContactInput)
    (hn : runStrChecks r.name nameChecks = [])
    (he : runStrChecks r.email emailChecks = [])
    (hs : runStrChecks r.subject subjectChecks = []) :
    (r.message.length = 9 →
      (contactValidate r).message = ["Message must be at least 10 characters"] ∧
      contactValid r = false) ∧
    (10 ≤ r.message.length → r.message.length ≤ 1000 → contactValid r = true) ∧
    (r.message.length < 10 → contactValid r = false) ∧
    (1000 < r.message.length → contactValid r = false) ∧
    (∀ s : String, 100 < s.length → runStrChecks s nameChecks ≠ []) ∧
    (∀ s : String, 200 < s.length → runStrChecks s subjectChecks ≠ []) := by
  refine ⟨?_, ?_, ?_, ?_, ?_, ?_⟩
  · intro h9
    constructor
    · simp [contactValidate, runStrChecks, messageChecks, runStrCheck, h9]
    · simp [contactValid, contactValidate, runStrChecks, messageChecks, runStrCheck, h9]
  · intro hlo hhi
    have hm : runStrChecks r.message messageChecks = [] := by
      simp [runStrChecks, messageChecks, runStrCheck, Nat.not_lt.mpr hlo,
        Nat.not_lt.mpr hhi]
    simp [contactValid, contactValidate, hn, he, hs, hm]
  · intro hlt
    simp [contactValid, contactValidate, runStrChecks, messageChecks, runStrCheck, hlt]
  · intro hgt
    simp [contactValid, contactValidate, runStrChecks, messageChecks, runStrCheck, hgt]
  · intro s hlen
    simp [runStrChecks, nameChecks, runStrCheck, hlen]
  · intro s hlen
    simp [runStrChecks, subjectChecks, runStrCheck, hlen]

/-- Witness for the amended claim C4 at a concrete payload: with valid name,
email and subject, a 10-character message is accepted. -/
theorem contact_length_bounds_witness :
    contactValid { name := "Bob", email := "a@b.co", subject := "Hi",
                   message := "0123456789" } = true :=
  (contact_length_bounds
      { name := "Bob", email := "a@b.co", subject := "Hi", message := "0123456789" }
      (by decide) (by decide) (by decide)).2.1 (by decide) (by decide)

/-! ## Multi-step wizard (claim C5) -/

/-- The field names of `multiStepFormSchema` (form-schemas.ts:12-39). -/
inductive MSField
  | firstName
  | lastName
  | email
  | addressLine1
  | addressLine2
  | city
  | state
  | postalCode
  | country
  | phone
  | preferences
deriving DecidableEq, Repr

/-- The nested preferences flags (form-schemas.ts:29-33). -/
structure Prefs where
  receiveNewsletter : Bool
  receiveUpdates : Bool
  marketingConsent : Bool
deriving DecidableEq, Repr

/-- The wizard's in-memory form values (the `defaultValues` shape of
MultiStepForm, part_002:35-51): every text input holds a string. -/
structure MultiStepValues where
  firstName : String
  lastName : String
  email : String
  addressLine1 : String
  addressLine2 : String
  city : String
  state : String
  postalCode : String
  country : String
  phone : String
  preferences : Prefs
deriving DecidableEq, Repr

/-- One entry of the wizard's `steps` array (part_002:55-74): its title and
the fields it validates. -/
structure WizardStep where
  title : String
  fields : List MSField
deriving DecidableEq, Repr

/-- The `steps` array of MultiStepForm (part_002:55-74). -/
def steps : List WizardStep :=
  [{ title := "Personal Information",
     fields := [MSField.firstName, MSField.lastName, MSField.email] },
   { title := "Address",
     fields := [MSField.addressLine1, MSField.addressLine2, MSField.city,
                MSField.state, MSField.postalCode, MSField.country] },
   { title := "Additional Information",
     fields := [MSField.phone, MSField.preferences] }]

/-- The per-field rule of `multiStepFormSchema` (form-schemas.ts:12-34):
required strings are `min(1)`, email is the email format check,
`addressLine2` and `phone` are optional, and the preferences flags are plain
booleans with defaults, so always valid. -/
def fieldValid (v : MultiStepValues) : MSField → Bool
  | MSField.firstName => decide (1 ≤ v.firstName.length)
  | MSField.lastName => decide (1 ≤ v.lastName.length)
  | MSField.email => emailOk v.email
  | MSField.addressLine1 => decide (1 ≤ v.addressLine1.length)
  | MSField.addressLine2 => true
  | MSField.city => decide (1 ≤ v.city.length)
  | MSField.state => decide (1 ≤ v.state.length)
  | MSField.postalCode => decide (1 ≤ v.postalCode.length)
  | MSField.country => decide (1 ≤ v.country.length)
  | MSField.phone => true
  | MSField.preferences => true

/-- The field list validated when leaving step `k`: `steps[step].fields`
(part_002:79). -/
def stepFieldsAt (k : Nat) : List MSField :=
  ((steps[k]?).map WizardStep.fields).getD []

/-- `trigger(steps[step].fields)` (part_002:79): validating solely the
current step's fields succeeds. -/
def stepValidationPasses (v : MultiStepValues) (k : Nat) : Bool :=
  (stepFieldsAt k).all (fieldValid v)

/-- `handleNext` (part_002:77-85): advance to step `k + 1` exactly when the
current step's fields validate; otherwise stay at `k`. -/
def handleNext (v : MultiStepValues) (k : Nat) : Nat :=
  if stepValidationPasses v k then k + 1 else k

/-- Two value assignments agree on one field. -/
def fieldsAgree (v w : MultiStepValues) : MSField → Bool
  | MSField.firstName => v.firstName == w.firstName
  | MSField.lastName => v.lastName == w.lastName
  | MSField.email => v.email == w.email
  | MSField.addressLine1 => v.addressLine1 == w.addressLine1
  | MSField.addressLine2 => v.addressLine2 == w.addressLine2
  | MSField.city => v.city == w.city
  | MSField.state => v.state == w.state
  | MSField.postalCode => v.postalCode == w.postalCode
  | MSField.country => v.country == w.country
  | MSField.phone => v.phone == w.phone
  | MSField.preferences =>
      v.preferences.receiveNewsletter == w.preferences.receiveNewsletter &&
        v.preferences.receiveUpdates == w.preferences.receiveUpdates &&
        v.preferences.marketingConsent == w.preferences.marketingConsent

theorem fieldValid_congr (v w : MultiStepValues) (f : MSField)
    (h : fieldsAgree v w f = true) : fieldValid v f = fieldValid w f := by
  cases f <;> simp only [fieldsAgree] at h <;> simp only [fieldValid]
  · rw [eq_of_beq h]
  · rw [eq_of_beq h]
  · rw [eq_of_beq h]
  · rw [eq_of_beq h]
  · rw [eq_of_beq h]
  · rw [eq_of_beq h]
  · rw [eq_of_beq h]
  · rw [eq_of_beq h]

theorem all_congr_of_mem {α : Type} (l : List α) (p q : α → Bool)
    (h : ∀ x ∈ l, p x = q x) : l.all p = l.all q := by
  induction l with
  | nil => rfl
  | cons a t ih =>
    simp only [List.all_cons, h a (List.mem_cons_self a t),
      ih (fun x hx => h x (List.mem_cons_of_mem a hx))]

/-- Claim C5: the wizard's step groups are exactly personal info
(firstName/lastName/email), address (addressLine1/addressLine2/city/state/
postalCode/country) and additional (phone/preferences); the validation run
to leave step `k` depends only on step `k`'s own fields (so a field exclusive
to a later step is never evaluated), and the transition to step `k + 1` is
permitted iff validating solely those fields succeeds. -/
theorem multiStep_validation_partitioned (k : Nat) (v w : MultiStepValues)
    (hagree : ∀ f ∈ stepFieldsAt k, fieldsAgree v w f = true) :
    steps.map WizardStep.fields =
      [[MSField.firstName, MSField.lastName, MSField.email],
       [MSField.addressLine1, MSField.addressLine2, MSField.city,
        MSField.state, MSField.postalCode, MSField.country],
       [MSField.phone, MSField.preferences]] ∧
    stepValidationPasses v k = stepValidationPasses w k ∧
    (handleNext v k = k + 1 ↔ stepValidationPasses v k = true) := by
  refine ⟨rfl, ?_, ?_⟩
  · exact all_congr_of_mem (stepFieldsAt k) (fieldValid v) (fieldValid w)
      (fun f hf => fieldValid_congr v w f (hagree f hf))
  · unfold handleNext
    by_cases h : stepValidationPasses v k = true
    · rw [if_pos h]
      simp [h]
    · rw [if_neg h]
      simp [h]

/-- Values valid for the first wizard step, used to instantiate claim C5. -/
def msSampleV : MultiStepValues :=
  { firstName := "Ada", lastName := "Lovelace", email := "ada@example.org",
    addressLine1 := "", addressLine2 := "", city := "", state := "",
    postalCode := "", country := "", phone := "",
    preferences := { receiveNewsletter := false, receiveUpdates := false,
                     marketingConsent := false } }

/-- The same values with every later-step field changed. -/
def msSampleW : MultiStepValues :=
  { firstName := "Ada", lastName := "Lovelace", email := "ada@example.org",
    addressLine1 := "10 Downing St", addressLine2 := "Flat 2",
    city := "London", state := "LDN", postalCode := "SW1", country := "UK",
    phone := "555", preferences := { receiveNewsletter := true,
                                     receiveUpdates := true,
                                     marketingConsent := true } }

/-- Witness for claim C5 at step 0 on concrete values that agree on the
personal-info fields but differ on every later-step field: validating step 0
gives the same outcome, and the step-0 transition is permitted. -/
theorem multiStep_validation_partitioned_witness :
    stepValidationPasses msSampleV 0 = stepValidationPasses msSampleW 0 ∧
      handleNext msSampleV 0 = 1 :=
  ⟨(multiStep_validation_partitioned 0 msSampleV msSampleW (by decide)).2.1,
    (multiStep_validation_partitioned 0 msSampleV msSampleW (by decide)).2.2.mpr
      (by decide)⟩

/-! ## Submission pipeline of the contact handler (claim C6) -/

/-- Outcome of the storage collaborator's INSERT (`query`, lib/db.ts):
it either resolves or throws. -/
inductive DBOutcome
  | ok
  | fail
deriving DecidableEq, Repr

/-- What `POST /api/forms/contact` (part_008:6-51) produces: the HTTP status,
the response body fields, and how the stored table changed.  `insertAttempts`
counts INSERT statements issued, `rowsStored` rows actually persisted. -/
structure ContactHandlerResult where
  status : Nat
  success : Bool
  errors : Option ContactErrors
  message : Option String
  insertAttempts : Nat
  rowsStored : Nat
deriving DecidableEq, Repr

/-- The contact POST handler (part_008:6-51): an unparseable body is caught
by the surrounding try/catch (500); a payload failing `safeParse` returns the
field-keyed errors with 400 and no INSERT; a valid payload issues one INSERT,
answering success, or 500 if the INSERT throws. -/
def contactPOST (body : Option ContactInput) (db : DBOutcome) : ContactHandlerResult :=
  match body with
  | none =>
    { status := 500, success := false, errors := none,
      message := some "An error occurred while processing your submission",
      insertAttempts := 0, rowsStored := 0 }
  | some r =>
    if contactValid r = true then
      match db with
      | DBOutcome.ok =>
        { status := 200, success := true, errors := none,
          message := some "Form submitted successfully",
          insertAttempts := 1, rowsStored := 1 }
      | DBOutcome.fail =>
        { status := 500, success := false, errors := none,
          message := some "An error occurred while processing your submission",
          insertAttempts := 1, rowsStored := 0 }
    else
      { status := 400, success := false, errors := some (contactValidate r),
        message := none, insertAttempts := 0, rowsStored := 0 }

/-- Claim C6: a payload failing schema validation gets HTTP 400 with the full
field-keyed error mapping and no INSERT is attempted (stored state
unchanged); a request failing unexpectedly after validation gets HTTP 500
with a single unstructured message; a valid payload yields a success response
after exactly one INSERT. -/
theorem contact_post_pipeline (body : Option ContactInput) (db : DBOutcome) :
    (∀ r, body = some r → contactValid r = false →
      (contactPOST body db).status = 400 ∧
      (contactPOST body db).success = false ∧
      (contactPOST body db).errors = some (contactValidate r) ∧
      (contactPOST body db).insertAttempts = 0 ∧
      (contactPOST body db).rowsStored = 0) ∧
    (∀ r, body = some r → contactValid r = true → db = DBOutcome.fail →
      (contactPOST body db).status = 500 ∧
      (contactPOST body db).success = false ∧
      (contactPOST body db).errors = none ∧
      (contactPOST body db).message =
        some "An error occurred while processing your submission") ∧
    (∀ r, body = some r → contactValid r = true → db = DBOutcome.ok →
      (contactPOST body db).status = 200 ∧
      (contactPOST body db).success = true ∧
      (contactPOST body db).insertAttempts = 1 ∧
      (contactPOST body db).rowsStored = 1) := by
  refine ⟨?_, ?_, ?_⟩
  · rintro r rfl hv
    simp [contactPOST, hv]
  · rintro r rfl hv rfl
    simp [contactPOST, hv]
  · rintro r rfl hv rfl
    simp [contactPOST, hv]

/-- Witness for claim C6 at concrete requests: a too-short message gets 400
with no insert attempt, and a valid payload with a working store gets a
success with exactly one row. -/
theorem contact_post_pipeline_witness :
    ((contactPOST (some { name := "Bob", email := "a@b.co", subject := "Hi",
                          message := "short" }) DBOutcome.ok).status = 400 ∧
      (contactPOST (some { name := "Bob", email := "a@b.co", subject := "Hi",
                           message := "short" }) DBOutcome.ok).insertAttempts = 0) ∧
    ((contactPOST (some { name := "Bob", email := "a@b.co", subject := "Hi",
                          message := "0123456789" }) DBOutcome.ok).success = true ∧
      (contactPOST (some { name := "Bob", email := "a@b.co", subject := "Hi",
                           message := "0123456789" }) DBOutcome.ok).rowsStored = 1) := by
  constructor
  · have h := (contact_post_pipeline
        (some { name := "Bob", email := "a@b.co", subject := "Hi", message := "short" })
        DBOutcome.ok).1
        { name := "Bob", email := "a@b.co", subject := "Hi", message := "short" }
        rfl (by decide)
    exact ⟨h.1, h.2.2.2.1⟩
  · have h := (contact_post_pipeline
        (some { name := "Bob", email := "a@b.co", subject := "Hi", message := "0123456789" })
        DBOutcome.ok).2.2
        { name := "Bob", email := "a@b.co", subject := "Hi", message := "0123456789" }
        rfl (by decide) rfl
    exact ⟨h.2.1, h.2.2.2⟩

/-! ## Field add / update (claim C7) -/

/-- `field.id || generateId()` (useDynamicForm.ts:13, DynamicForm.tsx:66):
a field whose id is the empty string gets the generated id; the generated
random id is passed in as `genId`. -/
def assignId (genId : String) (f : FieldDef) : FieldDef :=
  if f.id = "" then { f with id := genId } else f

/-- The in-memory builder state owned by `useDynamicForm` / `DynamicForm`:
the field list and the "field being edited" pointer. -/
structure DynState where
  fields : List FieldDef
  fieldBeingEdited : Option FieldDef
deriving DecidableEq, Repr

/-- `addField` (useDynamicForm.ts:10-26, identically DynamicForm.tsx:63-90):
if some field is marked as being edited, map over the list replacing each
field whose id equals the edited field's id by the (id-assigned) incoming
field and clear the edit pointer; otherwise append the incoming field. -/
def addField (genId : String) (s : DynState) (f : FieldDef) : DynState :=
  let newField := assignId genId f
  match s.fieldBeingEdited with
  | some e =>
    { fields := s.fields.map fun g => if g.id = e.id then newField else g,
      fieldBeingEdited := none }
  | none =>
    { fields := s.fields ++ [newField], fieldBeingEdited := none }

/-- An existing field with id "a". -/
def fieldA : FieldDef :=
  { id := "a", label := "Alpha", type := FieldType.text, required := false,
    options := none, value := none }

/-- An incoming field with the different id "b". -/
def fieldB : FieldDef :=
  { id := "b", label := "Beta", type := FieldType.text, required := false,
    options := none, value := none }

/-- Counterexample to claim C7 as stated: while the field with id "a" is
being edited, `addField` is called with a field whose id "b" matches no field
being edited — the claim then requires an append, but the code replaces the
edited field "a" in place with the incoming field instead. -/
theorem addField_mismatched_id_counterexample :
    fieldB.id ≠ fieldA.id ∧
    (addField "g1" { fields := [fieldA], fieldBeingEdited := some fieldA } fieldB).fields
      = [fieldB] ∧
    (addField "g1" { fields := [fieldA], fieldBeingEdited := some fieldA } fieldB).fields
      ≠ [fieldA, fieldB] := by
  refine ⟨by decide, by decide, by decide⟩

/-- Claim C7 (amended: the replace branch triggers whenever any field is
marked as being edited, not only on a matching id): if some field `e` is
being edited, the incoming field — its id replaced by the generated one when
empty — replaces in place every field whose id equals `e`'s id, preserving
length and positions and leaving all other fields unchanged, and the edit
pointer is cleared; if no field is being edited the incoming field is
appended to the end leaving every existing field unchanged; a field supplied
without an id receives the generated one. -/
theorem addField_amended_behavior (genId : String) (s : DynState) (f : FieldDef) :
    (∀ e, s.fieldBeingEdited = some e →
      (addField genId s f).fields.length = s.fields.length ∧
      (∀ (i : Nat) (g : FieldDef), s.fields[i]? = some g →
        (g.id = e.id →
          ((addField genId s f).fields)[i]? = some (assignId genId f)) ∧
        (g.id ≠ e.id → ((addField genId s f).fields)[i]? = some g)) ∧
      (addField genId s f).fieldBeingEdited = none) ∧
    (s.fieldBeingEdited = none →
      (addField genId s f).fields = s.fields ++ [assignId genId f] ∧
      (addField genId s f).fieldBeingEdited = none) ∧
    (f.id = "" → assignId genId f = { f with id := genId }) ∧
    (f.id ≠ "" → assignId genId f = f) := by
  refine ⟨?_, ?_, ?_, ?_⟩
  · intro e he
    refine ⟨by simp [addField, he], ?_, by simp [addField, he]⟩
    intro i g hg
    constructor
    · intro hid
      simp [addField, he, List.getElem?_map, hg, hid]
    · intro hid
      simp [addField, he, List.getElem?_map, hg, hid]
  · intro hnone
    exact ⟨by simp [addField, hnone], by simp [addField, hnone]⟩
  · intro h
    simp [assignId, h]
  · intro h
    simp [assignId, h]

/-- Witness for the amended claim C7: with nothing being edited, the incoming
field is appended; with "a" being edited, the incoming "b" field replaces it
in place. -/
theorem addField_amended_behavior_witness :
    (addField "g1" { fields := [fieldA], fieldBeingEdited := none } fieldB).fields
      = [fieldA, fieldB] ∧
    ((addField "g1" { fields := [fieldA], fieldBeingEdited := some fieldA } fieldB).fields)[0]?
      = some fieldB := by
  constructor
  · have h := ((addField_amended_behavior "g1"
      { fields := [fieldA], fieldBeingEdited := none } fieldB).2.1 rfl).1
    rw [h]
    decide
  · have h := (((addField_amended_behavior "g1"
      { fields := [fieldA], fieldBeingEdited := some fieldA } fieldB).1 fieldA rfl).2.1
        0 fieldA rfl).1 rfl
    rw [h]
    decide

/-! ## Dynamic-form submission validation (claims C8, C9)

`dynamicFieldSchema` (form-schemas.ts:42-57) constrains the shape of each
field — id and label are strings, type an enum, required a boolean, options
an optional array, value an optional union — which the `FieldDef` type
captures; beyond the shape it applies the string check lists below, which
are all empty: `z.string()` with no refinement. -/

/-- `id: z.string()` (form-schemas.ts:43) — no checks. -/
def idChecks : List StrCheck := []

/-- `label: z.string()` (form-schemas.ts:44) — no checks, in particular no
minimum length. -/
def labelChecks : List StrCheck := []

/-- `formName: z.string()` (form-schemas.ts:60) — no checks. -/
def formNameChecks : List StrCheck := []

/-- The issues `dynamicFieldSchema` raises on one (well-shaped) field. -/
def dynamicFieldErrors (f : FieldDef) : List String :=
  runStrChecks f.id idChecks ++ runStrChecks f.label labelChecks

/-- The issues `dynamicFormSchema` (form-schemas.ts:59-62) raises on a
(well-shaped) submitted form. -/
def dynamicFormErrors (d : FormDefinition) : List String :=
  runStrChecks d.formName formNameChecks ++ (d.fields.map dynamicFieldErrors).flatten

/-- `dynamicFormSchema.safeParse` succeeds iff no issue was raised. -/
def dynamicFormValid (d : FormDefinition) : Bool :=
  (dynamicFormErrors d).isEmpty

/-- The client-side `register('label', { required: 'Label is required' })`
rule of the field-creation form (DynamicForm.tsx:236): an empty label is
rejected at field creation with this message. -/
def labelRequiredError (s : String) : Option String :=
  if s = "" then some "Label is required" else none

/-- Counterexample to claim C8 as stated: checkbox is a choice type
(`requiresOptions` holds), yet the options editor is not shown for it — the
editor condition covers only select and radio. -/
theorem optionsEditor_checkbox_counterexample :
    requiresOptions FieldType.checkbox = true ∧
      optionsEditorShown FieldType.checkbox = false := by
  constructor <;> decide

/-- Claim C8 (amended: the options editor is shown only for select and radio,
not for checkbox, and validation applies no options non-emptiness check):
`requiresOptions` — the condition normalizing options in `generateFormData` —
holds iff the type is select, radio or checkbox; the options editor is shown
iff the type is select or radio; and submission-time validation raises no
issue on any field, so no type's options are subject to a non-emptiness
check. -/
theorem requiresOptions_amended (t : FieldType) :
    (requiresOptions t = true ↔
      (t = FieldType.select ∨ t = FieldType.radio ∨ t = FieldType.checkbox)) ∧
    (optionsEditorShown t = true ↔ (t = FieldType.select ∨ t = FieldType.radio)) ∧
    (∀ f : FieldDef, dynamicFieldErrors f = []) := by
  refine ⟨?_, ?_, fun f => rfl⟩
  · cases t <;> simp [requiresOptions]
  · cases t <;> simp [optionsEditorShown]

/-- Witness for the amended claim C8 at concrete types: checkbox satisfies
`requiresOptions`, radio shows the options editor, and a checkbox field with
empty options raises no validation issue. -/
theorem requiresOptions_amended_witness :
    requiresOptions FieldType.checkbox = true ∧
      optionsEditorShown FieldType.radio = true ∧
      dynamicFieldErrors { id := "f2", label := "Agree", type := FieldType.checkbox,
                           required := false, options := some [], value := none } = [] :=
  ⟨((requiresOptions_amended FieldType.checkbox).1).mpr (Or.inr (Or.inr rfl)),
    ((requiresOptions_amended FieldType.radio).2.1).mpr (Or.inr rfl),
    (requiresOptions_amended FieldType.checkbox).2.2
      { id := "f2", label := "Agree", type := FieldType.checkbox,
        required := false, options := some [], value := none }⟩

/-- A field whose label is the empty string. -/
def emptyLabelField : FieldDef :=
  { id := "f1", label := "", type := FieldType.text, required := true,
    options := none, value := none }

/-- A submitted dynamic form containing the empty-label field. -/
def emptyLabelForm : FormDefinition :=
  { formName := "Survey", fields := [emptyLabelField] }

/-- Counterexample to claim C9 as stated: a submitted dynamic form containing
a field whose label is the empty string passes submission-time validation —
the schema's label rule is a plain string with no minimum length. -/
theorem emptyLabel_accepted_counterexample :
    emptyLabelField.label = "" ∧
      emptyLabelField ∈ emptyLabelForm.fields ∧
      dynamicFormValid emptyLabelForm = true := by
  refine ⟨rfl, by decide, by decide⟩

/-- Claim C9 (amended: submission-time validation does not reject empty
labels): every well-shaped submitted form passes `dynamicFormSchema`
validation, labels included, so an empty label is accepted at submission
time; label non-emptiness is enforced only by the field-creation form's
required rule, which rejects exactly the empty label with
"Label is required". -/
theorem dynamicValidation_label_unconstrained :
    (∀ d : FormDefinition, dynamicFormValid d = true) ∧
    labelRequiredError "" = some "Label is required" ∧
    (∀ s : String, s ≠ "" → labelRequiredError s = none) := by
  refine ⟨?_, rfl, ?_⟩
  · intro d
    simp [dynamicFormValid, dynamicFormErrors, dynamicFieldErrors, runStrChecks,
      idChecks, labelChecks, formNameChecks]
  · intro s hs
    simp [labelRequiredError, hs]

/-- Witness for the amended claim C9: the concrete empty-label form is
accepted at submission time while the creation-form rule accepts a non-empty
label. -/
theorem dynamicValidation_label_unconstrained_witness :
    dynamicFormValid emptyLabelForm = true ∧ labelRequiredError "Name" = none :=
  ⟨dynamicValidation_label_unconstrained.1 emptyLabelForm,
    dynamicValidation_label_unconstrained.2.2 "Name" (by decide)⟩

/-! ## Multi-step INSERT parameters (claim C10) -/

/-- A validated multi-step payload (`result.data` in part_009:28-40):
`addressLine2` and `phone` are the schema's optional strings. -/
structure MultiStepPayload where
  firstName : String
  lastName : String
  email : String
  addressLine1 : String
  addressLine2 : Option String
  city : String
  state : String
  postalCode : String
  country : String
  phone : Option String
  preferences : Prefs
deriving DecidableEq, Repr

/-- A parameter bound into the INSERT statement: a string or SQL NULL. -/
inductive SqlParam
  | str (s : String)
  | null
deriving DecidableEq, Repr

/-- The JavaScript `x || null` applied to an optional string
(part_009:51-52): an absent or empty (falsy) string becomes NULL, any other
string is passed through. -/
def jsOrNull : Option String → SqlParam
  | some s => if s = "" then SqlParam.null else SqlParam.str s
  | none => SqlParam.null

/-- `JSON.stringify` of a boolean. -/
def boolJson (b : Bool) : String :=
  if b then "true" else "false"

/-- `JSON.stringify(preferences)` (part_009:52). -/
def prefsJson (p : Prefs) : String :=
  "\x7b\"receiveNewsletter\":" ++ boolJson p.receiveNewsletter ++
    ",\"receiveUpdates\":" ++ boolJson p.receiveUpdates ++
    ",\"marketingConsent\":" ++ boolJson p.marketingConsent ++ "\x7d"

/-- The parameter list `$1 … $11` bound into
`INSERT INTO multistep_submissions (… ) VALUES (…)` (part_009:43-54), in
column order first_name, last_name, email, address_line1, address_line2,
city, state, postal_code, country, phone, preferences. -/
def multiStepInsertParams (p : MultiStepPayload) : List SqlParam :=
  [SqlParam.str p.firstName, SqlParam.str p.lastName, SqlParam.str p.email,
    SqlParam.str p.addressLine1, jsOrNull p.addressLine2, SqlParam.str p.city,
    SqlParam.str p.state, SqlParam.str p.postalCode, SqlParam.str p.country,
    jsOrNull p.phone, SqlParam.str (prefsJson p.preferences)]

/-- Claim C10: for every valid multi-step submission the handler binds NULL
(not the empty string) to the address_line2 and phone columns whenever the
validated value is absent or empty, binds the value unchanged otherwise, and
binds every required column's validated value unchanged (preferences as its
JSON serialization). -/
theorem multiStep_insert_null_coalescing (p : MultiStepPayload) :
    ((p.addressLine2 = none ∨ p.addressLine2 = some "") →
      (multiStepInsertParams p)[4]? = some SqlParam.null) ∧
    (∀ s, p.addressLine2 = some s → s ≠ "" →
      (multiStepInsertParams p)[4]? = some (SqlParam.str s)) ∧
    ((p.phone = none ∨ p.phone = some "") →
      (multiStepInsertParams p)[9]? = some SqlParam.null) ∧
    (∀ s, p.phone = some s → s ≠ "" →
      (multiStepInsertParams p)[9]? = some (SqlParam.str s)) ∧
    (multiStepInsertParams p)[0]? = some (SqlParam.str p.firstName) ∧
    (multiStepInsertParams p)[1]? = some (SqlParam.str p.lastName) ∧
    (multiStepInsertParams p)[2]? = some (SqlParam.str p.email) ∧
    (multiStepInsertParams p)[3]? = some (SqlParam.str p.addressLine1) ∧
    (multiStepInsertParams p)[5]? = some (SqlParam.str p.city) ∧
    (multiStepInsertParams p)[6]? = some (SqlParam.str p.state) ∧
    (multiStepInsertParams p)[7]? = some (SqlParam.str p.postalCode) ∧
    (multiStepInsertParams p)[8]? = some (SqlParam.str p.country) ∧
    (multiStepInsertParams p)[10]? = some (SqlParam.str (prefsJson p.preferences)) := by
  refine ⟨?_, ?_, ?_, ?_, rfl, rfl, rfl, rfl, rfl, rfl, rfl, rfl, rfl⟩
  · rintro (h | h) <;> simp [multiStepInsertParams, jsOrNull, h]
  · intro s hs hne
    simp [multiStepInsertParams, jsOrNull, hs, hne]
  · rintro (h | h) <;> simp [multiStepInsertParams, jsOrNull, h]
  · intro s hs hne
    simp [multiStepInsertParams, jsOrNull, hs, hne]

/-- A concrete validated multi-step payload with an empty address line 2 and
a present phone. -/
def msPayloadSample : MultiStepPayload :=
  { firstName := "Ada", lastName := "Lovelace", email := "ada@example.org",
    addressLine1 := "10 Downing St", addressLine2 := some "",
    city := "London", state := "LDN", postalCode := "SW1", country := "UK",
    phone := some "555-0100",
    preferences := { receiveNewsletter := true, receiveUpdates := false,
                     marketingConsent := false } }

/-- Witness for claim C10 at the concrete payload: the empty address line 2
is bound as NULL while the present phone is passed through unchanged. -/
theorem multiStep_insert_null_coalescing_witness :
    (multiStepInsertParams msPayloadSample)[4]? = some SqlParam.null ∧
    (multiStepInsertParams msPayloadSample)[9]? = some (SqlParam.str "555-0100") :=
  ⟨(multiStep_insert_null_coalescing msPayloadSample).1 (Or.inr rfl),
    (multiStep_insert_null_coalescing msPayloadSample).2.2.2.1 "555-0100" rfl
      (by decide)⟩
